import Mathlib

/-
Verification of the computational core of webAppTrafo (src/trafoAppB1.py).

The embedding choices:
- Python floats are modelled as exact rationals (ℚ).  Every concrete
  quantity the properties below mention (integer sample temperatures,
  half-integer midpoints, the tabulated factors, the thresholds) is exactly
  representable in binary floating point, and the float arithmetic the code
  performs on them (subtraction of small integers/halves, abs, comparison,
  multiplication by table values) is exact there, so the rational model
  agrees with the float execution on the stated properties.
- Python `str.lower()` / `str.upper()` are modelled by mapping
  `Char.toLower` / `Char.toUpper` over the characters; this agrees with
  Python on the ASCII strings the program uses ("Aceite", "Seco", "agua",
  the form labels).
- `raise ValueError(msg)` is modelled as `Except.error msg`.
-/

/-- Model of Python `str.lower()` (ASCII): lowercase every character. -/
def pyLower (s : String) : String := ⟨s.data.map Char.toLower⟩

/-- Model of Python `str.upper()` (ASCII): uppercase every character. -/
def pyUpper (s : String) : String := ⟨s.data.map Char.toUpper⟩

/-- `temperaturas = list(range(-10, 115, 5))` from
`obtener_valor_por_temperatura`: the 25 integers -10, -5, …, 110. -/
def temperaturas : List ℤ := (List.range 25).map (fun (k : ℕ) => -10 + 5 * (k : ℤ))

/-- `valores_aceite` from `obtener_valor_por_temperatura`, verbatim. -/
def valores_aceite : List ℚ := [
  0.125, 0.180, 0.25, 0.36, 0.50, 0.75, 1.00, 1.40, 1.98, 2.80,
  3.95, 5.60, 7.85, 11.20, 15.85, 22.40, 31.75, 44.70, 63.50,
  89.789, 127.00, 180.00, 254.00, 359.15, 509.00]

/-- `valores_seco` from `obtener_valor_por_temperatura`, verbatim. -/
def valores_seco : List ℚ := [
  0.25, 0.32, 0.40, 0.50, 0.63, 0.81, 1.00, 1.25, 1.58, 2.00,
  2.50, 3.15, 3.98, 5.00, 6.30, 7.90, 10.00, 12.60, 15.80,
  20.00, 25.20, 31.60, 40.00, 50.40, 63.20]

/-- `temperaturas[i]` as a rational (the code subtracts the float input from
this integer).  Indices used by the code are always in range; `getD` with
default 0 only totalises the function. -/
def tempQ (i : ℕ) : ℚ := ((temperaturas.getD i 0 : ℤ) : ℚ)

/-- One step of Python's `min(..., key=f)` scan: the running best is
replaced only when the new key is strictly smaller, so on ties the earliest
element is kept. -/
def pasoMin (key : ℕ → ℚ) (best i : ℕ) : ℕ := if key i < key best then i else best

/-- `indice_cercano = min(range(len(temperaturas)), key=lambda i:
abs(temperaturas[i] - temperatura_prueba))`.  Python's `min` starts with the
first element (index 0) as the running best and scans the rest; folding
`pasoMin` from 0 over the whole range is the same, because the step at
`i = 0` compares the key of 0 with itself and keeps 0. -/
def indice_cercano (temperatura_prueba : ℚ) : ℕ :=
  (List.range temperaturas.length).foldl
    (pasoMin (fun i => |tempQ i - temperatura_prueba|)) 0

/-- `obtener_valor_por_temperatura(temperatura_prueba, tipo_aislamiento)`:
select the value list by the lowercased insulation kind (raising
`ValueError` for an unknown kind), then return the value at the index of
the nearest temperature. -/
def obtener_valor_por_temperatura (temperatura_prueba : ℚ)
    (tipo_aislamiento : String) : Except String ℚ :=
  if pyLower tipo_aislamiento = "aceite" then
    Except.ok (valores_aceite.getD (indice_cercano temperatura_prueba) 0)
  else if pyLower tipo_aislamiento = "seco" then
    Except.ok (valores_seco.getD (indice_cercano temperatura_prueba) 0)
  else
    Except.error "Tipo de aislamiento no válido. Use 'Aceite' o 'Seco'."

/-- Tabulated correction factor at index `i` of the value list selected by
the (lowercased) insulation kind; used to state what the lookup returns. -/
def valorTabulado (tipo : String) (i : ℕ) : ℚ :=
  if pyLower tipo = "aceite" then valores_aceite.getD i 0 else valores_seco.getD i 0

theorem temperaturas_length : temperaturas.length = 25 := by
  simp [temperaturas]

theorem tempQ_eq (i : ℕ) (h : i < 25) : tempQ i = -10 + 5 * (i : ℚ) := by
  rw [tempQ, temperaturas, List.getD_eq_getElem?_getD, List.getElem?_map,
    List.getElem?_range h]
  simp

theorem foldl_pasoMin_mem (key : ℕ → ℚ) (l : List ℕ) (b : ℕ) :
    l.foldl (pasoMin key) b ∈ b :: l := by
  induction l generalizing b with
  | nil => simp
  | cons i rest ih =>
    have h := ih (pasoMin key b i)
    rw [List.foldl_cons]
    rcases List.mem_cons.mp h with h1 | h1
    · rw [h1]
      unfold pasoMin
      split <;> simp
    · simp [h1]

/-- The fold implementing Python's `min(range(n), key=...)` returns the
first index attaining the minimum key: any index `m` whose key is strictly
below every earlier key and at most every later key. -/
theorem foldl_pasoMin_range_eq (key : ℕ → ℚ) (n m : ℕ) (hm : m < n)
    (hbefore : ∀ i, i < m → key m < key i)
    (hafter : ∀ i, m < i → i < n → key m ≤ key i) :
    (List.range n).foldl (pasoMin key) 0 = m := by
  induction n with
  | zero => omega
  | succ n ih =>
    rw [List.range_succ, List.foldl_append, List.foldl_cons, List.foldl_nil]
    rcases Nat.lt_or_ge m n with hmn | hmn
    · have hr : (List.range n).foldl (pasoMin key) 0 = m :=
        ih hmn (fun i h1 h2 => hafter i h1 (Nat.lt_succ_of_lt h2))
      rw [hr]
      unfold pasoMin
      have hnm : ¬ key n < key m := not_lt.mpr (hafter n hmn (Nat.lt_succ_self n))
      simp [hnm]
    · have hmn' : m = n := by omega
      subst hmn'
      rcases Nat.eq_zero_or_pos m with h0 | h0
      · subst h0
        simp [pasoMin]
      · have hr := foldl_pasoMin_mem key (List.range m) 0
        set r := (List.range m).foldl (pasoMin key) 0 with hrdef
        have hrm : r < m := by
          rcases List.mem_cons.mp hr with h1 | h1
          · omega
          · exact List.mem_range.mp h1
        unfold pasoMin
        have hkr : key m < key r := hbefore r hrm
        simp [hkr]

/-- Characterisation of `indice_cercano` as the first minimiser of the
absolute temperature difference. -/
theorem indice_cercano_eq (t : ℚ) (m : ℕ) (hm : m < 25)
    (hbefore : ∀ i, i < m → |tempQ m - t| < |tempQ i - t|)
    (hafter : ∀ i, m < i → i < 25 → |tempQ m - t| ≤ |tempQ i - t|) :
    indice_cercano t = m := by
  rw [indice_cercano, temperaturas_length]
  exact foldl_pasoMin_range_eq _ 25 m hm hbefore hafter

theorem indice_cercano_exact (m : ℕ) (hm : m < 25) :
    indice_cercano (tempQ m) = m := by
  apply indice_cercano_eq _ m hm
  · intro i hi
    have htm : tempQ m = -10 + 5 * (m : ℚ) := tempQ_eq m hm
    have hti : tempQ i = -10 + 5 * (i : ℚ) := tempQ_eq i (by omega)
    rw [htm, hti]
    have hlt : (i : ℚ) < (m : ℚ) := by exact_mod_cast hi
    rw [sub_self, abs_zero]
    apply abs_pos.mpr
    intro hzero
    have : (5 : ℚ) * (i : ℚ) = 5 * (m : ℚ) := by linarith
    have : (i : ℚ) = (m : ℚ) := by linarith
    exact absurd this (ne_of_lt hlt)
  · intro i _ _
    rw [sub_self, abs_zero]
    exact abs_nonneg _

theorem indice_cercano_midpoint (m : ℕ) (hm : m + 1 < 25) :
    indice_cercano (tempQ m + 5 / 2) = m := by
  apply indice_cercano_eq _ m (by omega)
  · intro i hi
    have htm : tempQ m = -10 + 5 * (m : ℚ) := tempQ_eq m (by omega)
    have hti : tempQ i = -10 + 5 * (i : ℚ) := tempQ_eq i (by omega)
    rw [htm, hti]
    have hile : (i : ℚ) + 1 ≤ (m : ℚ) := by exact_mod_cast hi
    have h1 : |(-10 + 5 * (m : ℚ)) - (-10 + 5 * (m : ℚ) + 5 / 2)| = 5 / 2 := by
      rw [abs_of_nonpos (by linarith)]
      ring
    have h2 : (-10 + 5 * (i : ℚ)) - (-10 + 5 * (m : ℚ) + 5 / 2) ≤ -(15 / 2) := by
      linarith
    rw [h1, abs_of_nonpos (by linarith)]
    linarith
  · intro i hi hi25
    have htm : tempQ m = -10 + 5 * (m : ℚ) := tempQ_eq m (by omega)
    have hti : tempQ i = -10 + 5 * (i : ℚ) := tempQ_eq i (by omega)
    rw [htm, hti]
    have hile : (m : ℚ) + 1 ≤ (i : ℚ) := by exact_mod_cast hi
    have h1 : |(-10 + 5 * (m : ℚ)) - (-10 + 5 * (m : ℚ) + 5 / 2)| = 5 / 2 := by
      rw [abs_of_nonpos (by linarith)]
      ring
    have h2 : (5 : ℚ) / 2 ≤ (-10 + 5 * (i : ℚ)) - (-10 + 5 * (m : ℚ) + 5 / 2) := by
      linarith
    rw [h1, abs_of_nonneg (by linarith)]
    linarith

theorem indice_cercano_low (t : ℚ) (h : t < -10) : indice_cercano t = 0 := by
  apply indice_cercano_eq _ 0 (by omega)
  · intro i hi
    omega
  · intro i _ hi25
    have ht0 : tempQ 0 = -10 + 5 * ((0 : ℕ) : ℚ) := tempQ_eq 0 (by omega)
    have hti : tempQ i = -10 + 5 * (i : ℚ) := tempQ_eq i hi25
    have hipos : (0 : ℚ) ≤ (i : ℚ) := by positivity
    rw [ht0, hti]
    rw [abs_of_nonneg (by push_cast; linarith), abs_of_nonneg (by linarith)]
    push_cast
    linarith

theorem indice_cercano_high (t : ℚ) (h : 110 < t) : indice_cercano t = 24 := by
  apply indice_cercano_eq _ 24 (by omega)
  · intro i hi
    have ht24 : tempQ 24 = (110 : ℚ) := by rw [tempQ_eq 24 (by omega)]; norm_num
    have hti : tempQ i = -10 + 5 * (i : ℚ) := tempQ_eq i (by omega)
    have hile : (i : ℚ) < 24 := by exact_mod_cast hi
    rw [ht24, hti, abs_of_nonpos (by linarith), abs_of_nonpos (by linarith)]
    linarith
  · intro i hi hi25
    omega

theorem obtener_eq_of_aceite (t : ℚ) (tipo : String) (h : pyLower tipo = "aceite") :
    obtener_valor_por_temperatura t tipo
      = Except.ok (valores_aceite.getD (indice_cercano t) 0) := by
  simp [obtener_valor_por_temperatura, h]

theorem obtener_eq_of_seco (t : ℚ) (tipo : String) (h : pyLower tipo = "seco") :
    obtener_valor_por_temperatura t tipo
      = Except.ok (valores_seco.getD (indice_cercano t) 0) := by
  simp [obtener_valor_por_temperatura, h]

theorem obtener_eq_valorTabulado (t : ℚ) (tipo : String)
    (htipo : pyLower tipo = "aceite" ∨ pyLower tipo = "seco") :
    obtener_valor_por_temperatura t tipo
      = Except.ok (valorTabulado tipo (indice_cercano t)) := by
  rcases htipo with h | h
  · rw [obtener_eq_of_aceite t tipo h, valorTabulado, if_pos h]
  · rw [obtener_eq_of_seco t tipo h, valorTabulado, h]
    simp [valorTabulado]

/-- C1: for every temperature exactly equal to one of the 25 sample points
and either valid insulation kind, `obtener_valor_por_temperatura` returns
exactly the tabulated value at that point; and for every temperature
equidistant from two consecutive sample points (a midpoint such as 2.5
between 0 and 5) it returns the value at the lower (first-encountered)
index, because the scan selects the index minimising absolute difference
and breaks ties in favour of the earliest index. -/
theorem lookup_exact_and_midpoint (tipo : String)
    (htipo : pyLower tipo = "aceite" ∨ pyLower tipo = "seco") :
    (∀ m : ℕ, m < 25 →
      obtener_valor_por_temperatura (tempQ m) tipo
        = Except.ok (valorTabulado tipo m))
  ∧ (∀ m : ℕ, m + 1 < 25 →
      obtener_valor_por_temperatura ((tempQ m + tempQ (m + 1)) / 2) tipo
        = Except.ok (valorTabulado tipo m)) := by
  constructor
  · intro m hm
    rw [obtener_eq_valorTabulado _ _ htipo, indice_cercano_exact m hm]
  · intro m hm
    have hmid : (tempQ m + tempQ (m + 1)) / 2 = tempQ m + 5 / 2 := by
      have h1 : tempQ m = -10 + 5 * (m : ℚ) := tempQ_eq m (by omega)
      have h2 : tempQ (m + 1) = -10 + 5 * ((m + 1 : ℕ) : ℚ) := tempQ_eq (m + 1) hm
      rw [h1, h2]
      push_cast
      ring
    rw [hmid, obtener_eq_valorTabulado _ _ htipo, indice_cercano_midpoint m hm]

/-- Witness for C1: at the sample point 20 °C the dry lookup returns the
tabulated 1.00, and at the midpoint 2.5 °C (between samples 0 and 5) the
oil lookup returns the value 0.25 tabulated at the lower point 0 °C. -/
theorem lookup_exact_and_midpoint_witness :
    obtener_valor_por_temperatura 20 "Seco" = Except.ok 1.00 ∧
    obtener_valor_por_temperatura (5 / 2) "Aceite" = Except.ok 0.25 := by
  have hseco := lookup_exact_and_midpoint "Seco" (Or.inr (by decide))
  have haceite := lookup_exact_and_midpoint "Aceite" (Or.inl (by decide))
  constructor
  · have h := hseco.1 6 (by omega)
    have ht : tempQ 6 = 20 := by rw [tempQ_eq 6 (by omega)]; norm_num
    have hv : valorTabulado "Seco" 6 = 1.00 := by
      have : pyLower "Seco" = "seco" := by decide
      simp [valorTabulado, this, valores_seco]
    rw [ht, hv] at h
    exact h
  · have h := haceite.2 2 (by omega)
    have ht : (tempQ 2 + tempQ 3) / 2 = 5 / 2 := by
      rw [tempQ_eq 2 (by omega), tempQ_eq 3 (by omega)]
      norm_num
    have hv : valorTabulado "Aceite" 2 = 0.25 := by
      have : pyLower "Aceite" = "aceite" := by decide
      simp [valorTabulado, this, valores_aceite]
    rw [ht, hv] at h
    exact h

/-- C2: for every temperature strictly below -10 or strictly above 110 and
either valid insulation kind, `obtener_valor_por_temperatura` returns the
value at the nearest boundary index (the -10 °C entry at index 0, or the
110 °C entry at index 24, respectively). -/
theorem lookup_clamps_to_boundary (t : ℚ) (tipo : String)
    (htipo : pyLower tipo = "aceite" ∨ pyLower tipo = "seco") :
    (t < -10 →
      obtener_valor_por_temperatura t tipo = Except.ok (valorTabulado tipo 0))
  ∧ (110 < t →
      obtener_valor_por_temperatura t tipo = Except.ok (valorTabulado tipo 24)) := by
  constructor
  · intro h
    rw [obtener_eq_valorTabulado _ _ htipo, indice_cercano_low t h]
  · intro h
    rw [obtener_eq_valorTabulado _ _ htipo, indice_cercano_high t h]

/-- Witness for C2: `obtener_valor_por_temperatura(-15.0, "Aceite")`
returns 0.125, the oil value tabulated at the -10 °C boundary. -/
theorem lookup_clamps_to_boundary_witness :
    obtener_valor_por_temperatura (-15) "Aceite" = Except.ok 0.125 := by
  have h := (lookup_clamps_to_boundary (-15) "Aceite" (Or.inl (by decide))).1
    (by norm_num)
  have hv : valorTabulado "Aceite" 0 = 0.125 := by
    have hl : pyLower "Aceite" = "aceite" := by decide
    simp [valorTabulado, hl, valores_aceite]
  rw [hv] at h
  exact h

/-- C3: `obtener_valor_por_temperatura` fails (raises `ValueError`) if and
only if the lowercased insulation-kind string is neither "aceite" nor
"seco"; in particular, for a valid kind it never fails, whatever the
temperature argument. -/
theorem lookup_error_iff_invalid_kind (t : ℚ) (tipo : String) :
    (∃ e, obtener_valor_por_temperatura t tipo = Except.error e)
      ↔ (pyLower tipo ≠ "aceite" ∧ pyLower tipo ≠ "seco") := by
  unfold obtener_valor_por_temperatura
  split_ifs with h1 h2
  · simp [h1]
  · simp [h1, h2]
  · simp [h1, h2]

/-- C4: the result of `obtener_valor_por_temperatura` is invariant under
case changes of the insulation-kind argument, because the function only
inspects the lowercased string: any two kind strings with the same
lowercasing give identical results, for every temperature. -/
theorem lookup_case_insensitive (t : ℚ) (tipo₁ tipo₂ : String)
    (h : pyLower tipo₁ = pyLower tipo₂) :
    obtener_valor_por_temperatura t tipo₁ = obtener_valor_por_temperatura t tipo₂ := by
  unfold obtener_valor_por_temperatura
  rw [h]

/-- Witness for C4: at 20 °C, "aceite" and "ACEITE" give the same result,
and likewise "seco" and "SECO". -/
theorem lookup_case_insensitive_witness :
    obtener_valor_por_temperatura 20 "aceite"
      = obtener_valor_por_temperatura 20 "ACEITE"
  ∧ obtener_valor_por_temperatura 20 "seco"
      = obtener_valor_por_temperatura 20 "SECO" :=
  ⟨lookup_case_insensitive 20 "aceite" "ACEITE" (by decide),
   lookup_case_insensitive 20 "seco" "SECO" (by decide)⟩

theorem temperaturas_explicit :
    temperaturas = [-10, -5, 0, 5, 10, 15, 20, 25, 30, 35, 40, 45, 50,
      55, 60, 65, 70, 75, 80, 85, 90, 95, 100, 105, 110] := by decide

/-- C5: the reference table consists of exactly 25 temperature sample
points running from -10 to 110 in steps of 5 (hence strictly increasing),
and the two index-aligned value sequences (oil and dry) each have length
exactly 25.  The three lists are closed Lean definitions, so they are the
same constant data at every call site. -/
theorem reference_table_invariants :
    temperaturas.length = 25
  ∧ valores_aceite.length = 25
  ∧ valores_seco.length = 25
  ∧ temperaturas.head? = some (-10)
  ∧ temperaturas.getLast? = some 110
  ∧ List.Chain' (fun a b => b = a + 5) temperaturas
  ∧ List.Chain' (fun a b => a < b) temperaturas := by
  refine ⟨temperaturas_length, rfl, rfl, by decide, by decide, ?_, ?_⟩ <;>
  · rw [temperaturas_explicit]
    norm_num [List.chain'_cons, List.chain'_singleton]

/-- Value stored in the step-4 session dictionary: the dictionary is
heterogeneous, holding numbers and, in the single-phase branch, the text
placeholder "-". -/
inductive Celda where
  | num : ℚ → Celda
  | txt : String → Celda

/-- Fields written into `st.session_state.data` by step 4 ("Detalles de la
tabla de Resistencia de Aislamiento"). -/
structure Paso4 where
  resMedida_AVST : Celda
  resReferida_AVST : Celda
  resMedida_AVSB : ℚ
  resReferida_AVSB : ℚ
  resMedida_BVST : ℚ
  resReferida_BVST : ℚ
  resEsp_AVST : ℚ
  resEsp_AVSB : ℚ
  resEsp_BVST : ℚ
  resultado_AVST : String
  resultado_AVSB : String
  resultado_BVST : String

/-- Step 4, three-phase branch (`carTrafo_NroFases == 3`): each referred
resistance is the measured value times the factor returned by
`obtener_valor_por_temperatura` (called once per pair with the same
arguments; an exception aborts the step), the expected thresholds are
5/5/1 for oil and 25/25/5 for dry, and each label is "Cumple" when the
referred resistance reaches the threshold, else "No Cumple". -/
def paso4_trifasico (tipoAislamiento : String) (temperaturaPrueba : ℚ)
    (resMedida_AVST resMedida_AVSB resMedida_BVST : ℚ) : Except String Paso4 := do
  let factor_AVST ← obtener_valor_por_temperatura temperaturaPrueba tipoAislamiento
  let factor_AVSB ← obtener_valor_por_temperatura temperaturaPrueba tipoAislamiento
  let factor_BVST ← obtener_valor_por_temperatura temperaturaPrueba tipoAislamiento
  let resReferida_AVST := resMedida_AVST * factor_AVST
  let resReferida_AVSB := resMedida_AVSB * factor_AVSB
  let resReferida_BVST := resMedida_BVST * factor_BVST
  let resEsp_AVST : ℚ := if tipoAislamiento = "Aceite" then 5 else 25
  let resEsp_AVSB : ℚ := if tipoAislamiento = "Aceite" then 5 else 25
  let resEsp_BVST : ℚ := if tipoAislamiento = "Aceite" then 1 else 5
  pure {
    resMedida_AVST := Celda.num resMedida_AVST
    resReferida_AVST := Celda.num resReferida_AVST
    resMedida_AVSB := resMedida_AVSB
    resReferida_AVSB := resReferida_AVSB
    resMedida_BVST := resMedida_BVST
    resReferida_BVST := resReferida_BVST
    resEsp_AVST := resEsp_AVST
    resEsp_AVSB := resEsp_AVSB
    resEsp_BVST := resEsp_BVST
    resultado_AVST := if resReferida_AVST ≥ resEsp_AVST then "Cumple" else "No Cumple"
    resultado_AVSB := if resReferida_AVSB ≥ resEsp_AVSB then "Cumple" else "No Cumple"
    resultado_BVST := if resReferida_BVST ≥ resEsp_BVST then "Cumple" else "No Cumple" }

/-- Step 4, single-phase branch (else): the high-vs-ground pair is not
measured — its measured and referred cells are the text placeholder "-"
and its result is hard-coded "Cumple"; the other two pairs are computed as
in the three-phase branch. -/
def paso4_monofasico (tipoAislamiento : String) (temperaturaPrueba : ℚ)
    (resMedida_AVSB resMedida_BVST : ℚ) : Except String Paso4 := do
  let factor_AVSB ← obtener_valor_por_temperatura temperaturaPrueba tipoAislamiento
  let factor_BVST ← obtener_valor_por_temperatura temperaturaPrueba tipoAislamiento
  let resReferida_AVSB := resMedida_AVSB * factor_AVSB
  let resReferida_BVST := resMedida_BVST * factor_BVST
  let resEsp_AVST : ℚ := if tipoAislamiento = "Aceite" then 5 else 25
  let resEsp_AVSB : ℚ := if tipoAislamiento = "Aceite" then 5 else 25
  let resEsp_BVST : ℚ := if tipoAislamiento = "Aceite" then 1 else 5
  pure {
    resMedida_AVST := Celda.txt "-"
    resReferida_AVST := Celda.txt "-"
    resMedida_AVSB := resMedida_AVSB
    resReferida_AVSB := resReferida_AVSB
    resMedida_BVST := resMedida_BVST
    resReferida_BVST := resReferida_BVST
    resEsp_AVST := resEsp_AVST
    resEsp_AVSB := resEsp_AVSB
    resEsp_BVST := resEsp_BVST
    resultado_AVST := "Cumple"
    resultado_AVSB := if resReferida_AVSB ≥ resEsp_AVSB then "Cumple" else "No Cumple"
    resultado_BVST := if resReferida_BVST ≥ resEsp_BVST then "Cumple" else "No Cumple" }

/-- C6: whenever step 4 (three-phase) succeeds, every referred resistance
equals the measured resistance times the lookup's correction factor, the
per-kind thresholds are 5 (oil) / 25 (dry) for the high-vs-ground and
high-vs-low pairs and 1 (oil) / 5 (dry) for the low-vs-ground pair, and
each label is "Cumple" exactly when the referred resistance is at least
the threshold, otherwise "No Cumple". -/
theorem paso4_trifasico_spec (tipo : String) (t mA mB mC : ℚ) (p : Paso4)
    (h : paso4_trifasico tipo t mA mB mC = Except.ok p) :
    ∃ f, obtener_valor_por_temperatura t tipo = Except.ok f
      ∧ p.resReferida_AVST = Celda.num (mA * f)
      ∧ p.resReferida_AVSB = mB * f
      ∧ p.resReferida_BVST = mC * f
      ∧ p.resEsp_AVST = (if tipo = "Aceite" then (5 : ℚ) else 25)
      ∧ p.resEsp_AVSB = (if tipo = "Aceite" then (5 : ℚ) else 25)
      ∧ p.resEsp_BVST = (if tipo = "Aceite" then (1 : ℚ) else 5)
      ∧ (mA * f ≥ p.resEsp_AVST → p.resultado_AVST = "Cumple")
      ∧ (mA * f < p.resEsp_AVST → p.resultado_AVST = "No Cumple")
      ∧ (mB * f ≥ p.resEsp_AVSB → p.resultado_AVSB = "Cumple")
      ∧ (mB * f < p.resEsp_AVSB → p.resultado_AVSB = "No Cumple")
      ∧ (mC * f ≥ p.resEsp_BVST → p.resultado_BVST = "Cumple")
      ∧ (mC * f < p.resEsp_BVST → p.resultado_BVST = "No Cumple") := by
  cases hf : obtener_valor_por_temperatura t tipo with
  | error e =>
    rw [paso4_trifasico] at h
    simp [hf, bind, Except.bind] at h
  | ok f =>
    refine ⟨f, rfl, ?_⟩
    rw [paso4_trifasico] at h
    simp only [hf, bind, Except.bind, pure, Except.pure, Except.ok.injEq] at h
    subst h
    simp only [ge_iff_le]
    refine ⟨trivial, trivial, trivial, trivial, trivial, trivial, ?_, ?_, ?_, ?_, ?_, ?_⟩
    · exact fun hge => if_pos hge
    · exact fun hlt => if_neg (not_le.mpr hlt)
    · exact fun hge => if_pos hge
    · exact fun hlt => if_neg (not_le.mpr hlt)
    · exact fun hge => if_pos hge
    · exact fun hlt => if_neg (not_le.mpr hlt)

theorem obtener_aceite_20 :
    obtener_valor_por_temperatura 20 "Aceite" = Except.ok 1 := by
  have ht : tempQ 6 = 20 := by rw [tempQ_eq 6 (by omega)]; norm_num
  have h := obtener_eq_of_aceite (tempQ 6) "Aceite" (by decide)
  rw [indice_cercano_exact 6 (by omega), ht] at h
  rw [h]
  norm_num [valores_aceite]

theorem obtener_seco_20 :
    obtener_valor_por_temperatura 20 "Seco" = Except.ok 1 := by
  have ht : tempQ 6 = 20 := by rw [tempQ_eq 6 (by omega)]; norm_num
  have h := obtener_eq_of_seco (tempQ 6) "Seco" (by decide)
  rw [indice_cercano_exact 6 (by omega), ht] at h
  rw [h]
  norm_num [valores_seco]

/-- Witness for C6: oil transformer at 20 °C (factor 1.00), measured
resistances 4, 6 and 1/2 GΩ: referred values are 4, 6 and 1/2 against
thresholds 5, 5 and 1, so the labels are "No Cumple", "Cumple",
"No Cumple". -/
theorem paso4_trifasico_spec_witness :
    ∃ p : Paso4, paso4_trifasico "Aceite" 20 4 6 (1 / 2) = Except.ok p
      ∧ p.resultado_AVST = "No Cumple"
      ∧ p.resultado_AVSB = "Cumple"
      ∧ p.resultado_BVST = "No Cumple" := by
  have hp : paso4_trifasico "Aceite" 20 4 6 (1 / 2) = Except.ok
      { resMedida_AVST := Celda.num 4
        resReferida_AVST := Celda.num 4
        resMedida_AVSB := 6
        resReferida_AVSB := 6
        resMedida_BVST := 1 / 2
        resReferida_BVST := 1 / 2
        resEsp_AVST := 5
        resEsp_AVSB := 5
        resEsp_BVST := 1
        resultado_AVST := "No Cumple"
        resultado_AVSB := "Cumple"
        resultado_BVST := "No Cumple" } := by
    rw [paso4_trifasico]
    norm_num [obtener_aceite_20, bind, Except.bind, pure, Except.pure]
  obtain ⟨f, hf, hrA, hrB, hrC, hE1, hE2, hE3, hc1, hc2, hc3, hc4, hc5, hc6⟩ :=
    paso4_trifasico_spec "Aceite" 20 4 6 (1 / 2) _ hp
  have hf1 : f = 1 := by
    rw [obtener_aceite_20] at hf
    injection hf with h
    exact h.symm
  refine ⟨_, hp, ?_, ?_, ?_⟩
  · exact hc2 (by rw [hE1, hf1]; norm_num)
  · exact hc3 (by rw [hE2, hf1]; norm_num)
  · exact hc6 (by rw [hE3, hf1]; norm_num)

/-- C10: in the single-phase (Monofásico) path of step 4, whenever the
step succeeds the high-vs-ground result is unconditionally "Cumple" and
its referred resistance is the text placeholder "-" — for every insulation
kind, temperature and measured values, so no measurement, correction
factor or threshold comparison influences that label — while the other two
pairs do get the threshold comparison. -/
theorem paso4_monofasico_avst_incondicional (tipo : String) (t mB mC : ℚ)
    (p : Paso4) (h : paso4_monofasico tipo t mB mC = Except.ok p) :
    p.resultado_AVST = "Cumple"
  ∧ p.resReferida_AVST = Celda.txt "-"
  ∧ p.resMedida_AVST = Celda.txt "-"
  ∧ ∃ f, obtener_valor_por_temperatura t tipo = Except.ok f
      ∧ (mB * f ≥ p.resEsp_AVSB → p.resultado_AVSB = "Cumple")
      ∧ (mB * f < p.resEsp_AVSB → p.resultado_AVSB = "No Cumple")
      ∧ (mC * f ≥ p.resEsp_BVST → p.resultado_BVST = "Cumple")
      ∧ (mC * f < p.resEsp_BVST → p.resultado_BVST = "No Cumple") := by
  cases hf : obtener_valor_por_temperatura t tipo with
  | error e =>
    rw [paso4_monofasico] at h
    simp [hf, bind, Except.bind] at h
  | ok f =>
    rw [paso4_monofasico] at h
    simp only [hf, bind, Except.bind, pure, Except.pure, Except.ok.injEq] at h
    subst h
    simp only [ge_iff_le]
    refine ⟨trivial, trivial, trivial, f, rfl, ?_, ?_, ?_, ?_⟩
    · exact fun hge => if_pos hge
    · exact fun hlt => if_neg (not_le.mpr hlt)
    · exact fun hge => if_pos hge
    · exact fun hlt => if_neg (not_le.mpr hlt)

/-- Witness for C10: dry transformer at 20 °C (factor 1.00), measured 4
and 10 GΩ for the two computed pairs: the high-vs-ground label is
"Cumple" with referred cell "-" even though nothing was measured there;
high-vs-low (4 against 25) is "No Cumple" and low-vs-ground (10 against 5)
is "Cumple". -/
theorem paso4_monofasico_avst_incondicional_witness :
    ∃ p : Paso4, paso4_monofasico "Seco" 20 4 10 = Except.ok p
      ∧ p.resultado_AVST = "Cumple"
      ∧ p.resReferida_AVST = Celda.txt "-"
      ∧ p.resultado_AVSB = "No Cumple"
      ∧ p.resultado_BVST = "Cumple" := by
  have hp : paso4_monofasico "Seco" 20 4 10 = Except.ok
      { resMedida_AVST := Celda.txt "-"
        resReferida_AVST := Celda.txt "-"
        resMedida_AVSB := 4
        resReferida_AVSB := 4
        resMedida_BVST := 10
        resReferida_BVST := 10
        resEsp_AVST := 25
        resEsp_AVSB := 25
        resEsp_BVST := 5
        resultado_AVST := "Cumple"
        resultado_AVSB := "No Cumple"
        resultado_BVST := "Cumple" } := by
    rw [paso4_monofasico]
    norm_num [obtener_seco_20, bind, Except.bind, pure, Except.pure]
    have hne : ¬ ("Seco" = "Aceite") := by decide
    refine ⟨hne, ?_, ?_⟩
    · rw [if_neg hne]
      intro hle
      norm_num at hle
    · rw [if_neg hne]
      intro hlt
      norm_num at hlt
  obtain ⟨h1, h2, h3, f, hf, hc1, hc2, hc3, hc4⟩ :=
    paso4_monofasico_avst_incondicional "Seco" 20 4 10 _ hp
  have hf1 : f = 1 := by
    rw [obtener_seco_20] at hf
    injection hf with h
    exact h.symm
  refine ⟨_, hp, h1, h2, ?_, ?_⟩
  · exact hc2 (by rw [hf1]; norm_num)
  · exact hc3 (by rw [hf1]; norm_num)

/-- Model of the heterogeneous Python values traversed by
`convertir_a_mayusculas`: strings, dictionaries (string-keyed, as is
`st.session_state.data`), lists, tuples, and a default case `other` for a
value of any other type. -/
inductive PyVal (α : Type) where
  | str : String → PyVal α
  | dict : List (String × PyVal α) → PyVal α
  | list : List (PyVal α) → PyVal α
  | tuple : List (PyVal α) → PyVal α
  | other : α → PyVal α

mutual
/-- `convertir_a_mayusculas(data)`: uppercase a string; rebuild a dict
with the same keys and converted values (the comprehension
`{k: convertir_a_mayusculas(v) for k, v in data.items()}`); rebuild a
list or tuple with the converted elements; return any other value
unchanged. -/
def convertir_a_mayusculas {α : Type} : PyVal α → PyVal α
  | .str s => .str (pyUpper s)
  | .dict kvs => .dict (convertir_dict kvs)
  | .list vs => .list (convertir_lista vs)
  | .tuple vs => .tuple (convertir_lista vs)
  | .other a => .other a
/-- Elementwise helper for the dict comprehension of
`convertir_a_mayusculas`. -/
def convertir_dict {α : Type} : List (String × PyVal α) → List (String × PyVal α)
  | [] => []
  | (k, v) :: rest => (k, convertir_a_mayusculas v) :: convertir_dict rest
/-- Elementwise helper for the list/tuple comprehensions of
`convertir_a_mayusculas`. -/
def convertir_lista {α : Type} : List (PyVal α) → List (PyVal α)
  | [] => []
  | v :: rest => convertir_a_mayusculas v :: convertir_lista rest
end

mutual
/-- Observer: the shape of a value — container kinds, dict keys, lengths
and order — with the string contents and the atoms erased.  Stating that
`convertir_a_mayusculas` preserves `forma` says it preserves exactly that
structure. -/
def forma {α : Type} : PyVal α → PyVal Unit
  | .str _ => .str ""
  | .dict kvs => .dict (forma_dict kvs)
  | .list vs => .list (forma_lista vs)
  | .tuple vs => .tuple (forma_lista vs)
  | .other _ => .other ()
def forma_dict {α : Type} : List (String × PyVal α) → List (String × PyVal Unit)
  | [] => []
  | (k, v) :: rest => (k, forma v) :: forma_dict rest
def forma_lista {α : Type} : List (PyVal α) → List (PyVal Unit)
  | [] => []
  | v :: rest => forma v :: forma_lista rest
end

mutual
/-- Observer: every string occurring in a value, in traversal order. -/
def cadenas {α : Type} : PyVal α → List String
  | .str s => [s]
  | .dict kvs => cadenas_dict kvs
  | .list vs => cadenas_lista vs
  | .tuple vs => cadenas_lista vs
  | .other _ => []
def cadenas_dict {α : Type} : List (String × PyVal α) → List String
  | [] => []
  | (_, v) :: rest => cadenas v ++ cadenas_dict rest
def cadenas_lista {α : Type} : List (PyVal α) → List String
  | [] => []
  | v :: rest => cadenas v ++ cadenas_lista rest
end

theorem convertir_dict_eq_map {α : Type} (kvs : List (String × PyVal α)) :
    convertir_dict kvs = kvs.map (fun kv => (kv.1, convertir_a_mayusculas kv.2)) := by
  induction kvs with
  | nil => simp [convertir_dict]
  | cons kv rest ih =>
    cases kv
    simp [convertir_dict, ih]

theorem convertir_lista_eq_map {α : Type} (vs : List (PyVal α)) :
    convertir_lista vs = vs.map convertir_a_mayusculas := by
  induction vs with
  | nil => simp [convertir_lista]
  | cons v rest ih => simp [convertir_lista, ih]

mutual
theorem forma_convertir {α : Type} : ∀ v : PyVal α,
    forma (convertir_a_mayusculas v) = forma v
  | .str s => by simp [convertir_a_mayusculas, forma]
  | .dict kvs => by simp [convertir_a_mayusculas, forma, forma_dict_convertir kvs]
  | .list vs => by simp [convertir_a_mayusculas, forma, forma_lista_convertir vs]
  | .tuple vs => by simp [convertir_a_mayusculas, forma, forma_lista_convertir vs]
  | .other a => by simp [convertir_a_mayusculas, forma]
theorem forma_dict_convertir {α : Type} : ∀ kvs : List (String × PyVal α),
    forma_dict (convertir_dict kvs) = forma_dict kvs
  | [] => by simp [convertir_dict, forma_dict]
  | (k, v) :: rest => by
    simp [convertir_dict, forma_dict, forma_convertir v, forma_dict_convertir rest]
theorem forma_lista_convertir {α : Type} : ∀ vs : List (PyVal α),
    forma_lista (convertir_lista vs) = forma_lista vs
  | [] => by simp [convertir_lista, forma_lista]
  | v :: rest => by
    simp [convertir_lista, forma_lista, forma_convertir v, forma_lista_convertir rest]
end

mutual
theorem cadenas_convertir {α : Type} : ∀ v : PyVal α,
    cadenas (convertir_a_mayusculas v) = (cadenas v).map pyUpper
  | .str s => by simp [convertir_a_mayusculas, cadenas]
  | .dict kvs => by simp [convertir_a_mayusculas, cadenas, cadenas_dict_convertir kvs]
  | .list vs => by simp [convertir_a_mayusculas, cadenas, cadenas_lista_convertir vs]
  | .tuple vs => by simp [convertir_a_mayusculas, cadenas, cadenas_lista_convertir vs]
  | .other a => by simp [convertir_a_mayusculas, cadenas]
theorem cadenas_dict_convertir {α : Type} : ∀ kvs : List (String × PyVal α),
    cadenas_dict (convertir_dict kvs) = (cadenas_dict kvs).map pyUpper
  | [] => by simp [convertir_dict, cadenas_dict]
  | (k, v) :: rest => by
    simp [convertir_dict, cadenas_dict, cadenas_convertir v,
      cadenas_dict_convertir rest]
theorem cadenas_lista_convertir {α : Type} : ∀ vs : List (PyVal α),
    cadenas_lista (convertir_lista vs) = (cadenas_lista vs).map pyUpper
  | [] => by simp [convertir_lista, cadenas_lista]
  | v :: rest => by
    simp [convertir_lista, cadenas_lista, cadenas_convertir v,
      cadenas_lista_convertir rest]
end

/-- C9: `convertir_a_mayusculas` is a total deep-traversal transform: it
uppercases every string, recurses into dictionaries preserving keys, into
lists and into tuples preserving length, order and the container kind
(the defining equations below exhibit each case, with the no-op default
for other values), it preserves the whole shape of any nested value
(`forma`), and it uppercases exactly the strings of any nested value in
place (`cadenas`).  Totality is by construction: it is a Lean function on
all of `PyVal α`. -/
theorem convertir_a_mayusculas_deep_traversal (α : Type) :
    (∀ s : String,
      convertir_a_mayusculas (PyVal.str s : PyVal α) = PyVal.str (pyUpper s))
  ∧ (∀ kvs : List (String × PyVal α),
      convertir_a_mayusculas (PyVal.dict kvs)
        = PyVal.dict (kvs.map (fun kv => (kv.1, convertir_a_mayusculas kv.2))))
  ∧ (∀ vs : List (PyVal α),
      convertir_a_mayusculas (PyVal.list vs)
        = PyVal.list (vs.map convertir_a_mayusculas))
  ∧ (∀ vs : List (PyVal α),
      convertir_a_mayusculas (PyVal.tuple vs)
        = PyVal.tuple (vs.map convertir_a_mayusculas))
  ∧ (∀ a : α, convertir_a_mayusculas (PyVal.other a) = PyVal.other a)
  ∧ (∀ v : PyVal α, forma (convertir_a_mayusculas v) = forma v)
  ∧ (∀ v : PyVal α, cadenas (convertir_a_mayusculas v) = (cadenas v).map pyUpper) := by
  refine ⟨?_, ?_, ?_, ?_, ?_, forma_convertir, cadenas_convertir⟩
  · intro s
    simp [convertir_a_mayusculas]
  · intro kvs
    simp [convertir_a_mayusculas, convertir_dict_eq_map]
  · intro vs
    simp [convertir_a_mayusculas, convertir_lista_eq_map]
  · intro vs
    simp [convertir_a_mayusculas, convertir_lista_eq_map]
  · intro a
    simp [convertir_a_mayusculas]
